import Mathlib

/-!
Shallow embedding of `Spreadsheet.py` (NGS-general/SolidDataExtractor), a
Python 2 module that writes simple Excel spreadsheets through the external
xlwt/xlrd/xlutils libraries.

Modelling conventions:
* Cell tokens and buffered rows are Lean `String`s; the pending row buffer
  (`Worksheet.data`) is a list of tab-joined row strings, exactly as the
  source stores it.
* The external backing grid (an xlwt worksheet) is modelled observationally:
  `Worksheet.save` returns the ordered list of `worksheet.write(row,col,value)`
  calls it performs, as `Write` records, instead of mutating a handle.
  `xlwt.Formula f` denotes the spreadsheet formula `"=" ++ f` (xlwt prepends
  the `=` when rendering), which is captured by the `Cell.formula` constructor.
* Python integers are `Int` where the source can hold `-1` (the row cursor),
  `Nat` for list indices.
* Python exceptions that escape a method are modelled with `Except PyError`.
-/

namespace Spreadsheet

/-- Python 2 `str.isalpha` for byte strings under the default locale:
true exactly for ASCII letters. -/
def pyIsAlpha (c : Char) : Bool :=
  (65 ≤ c.toNat && c.toNat ≤ 90) || (97 ≤ c.toNat && c.toNat ≤ 122)

/-- Python 2 `str.isupper` for a single ASCII character. -/
def pyIsUpper (c : Char) : Bool :=
  65 ≤ c.toNat && c.toNat ≤ 90

/-- `row.split('\t')` on the underlying character list, with Python's
semantics for `str.split` with an explicit separator: the empty string
yields `[""]`, a trailing separator yields a trailing empty field. -/
def splitTabAux : List Char → List (List Char)
  | [] => [[]]
  | c :: cs =>
    if c = '\t' then [] :: splitTabAux cs
    else
      match splitTabAux cs with
      | [] => [[c]]
      | t :: ts => (c :: t) :: ts

/-- `row.split('\t')` as used throughout the source. -/
def pySplitTab (s : String) : List String :=
  (splitTabAux s.data).map String.mk

/-- `'\t'.join(items)` on character lists. -/
def joinTabAux : List (List Char) → List Char
  | [] => []
  | [t] => t
  | t :: ts => t ++ '\t' :: joinTabAux ts

/-- `'\t'.join(items)` as used in `Worksheet.insertColumn`. -/
def joinTab (l : List String) : String :=
  String.mk (joinTabAux (l.map String.data))

theorem splitTabAux_ne_nil (cs : List Char) : splitTabAux cs ≠ [] := by
  cases cs with
  | nil => simp [splitTabAux]
  | cons c cs =>
    simp only [splitTabAux]
    split
    · simp
    · cases h : splitTabAux cs <;> simp

theorem joinTabAux_splitTabAux (cs : List Char) :
    joinTabAux (splitTabAux cs) = cs := by
  induction cs with
  | nil => rfl
  | cons c cs ih =>
    simp only [splitTabAux]
    by_cases hc : c = '\t'
    · subst hc
      simp only [if_pos rfl]
      rcases h : splitTabAux cs with _ | ⟨t, ts⟩
      · exact absurd h (splitTabAux_ne_nil cs)
      · rw [h] at ih
        simp only [joinTabAux, List.nil_append]
        rw [ih]
    · rw [if_neg hc]
      rcases h : splitTabAux cs with _ | ⟨t, ts⟩
      · exact absurd h (splitTabAux_ne_nil cs)
      · rw [h] at ih
        cases ts with
        | nil => simpa [joinTabAux] using congrArg (c :: ·) ih
        | cons t' ts' => simpa [joinTabAux] using congrArg (c :: ·) ih

theorem joinTab_pySplitTab (s : String) : joinTab (pySplitTab s) = s := by
  cases s with
  | mk data =>
    simp only [joinTab, pySplitTab, List.map_map]
    have : (String.data ∘ String.mk) = id := by
      funext l; rfl
    rw [this, List.map_id, joinTabAux_splitTabAux]

/-- A value written into a cell of the backing grid.  `formula f` records
`worksheet.write(row, col, xlwt.Formula(f))`; the spreadsheet shows it as the
formula `"=" ++ f`. -/
inductive Cell
  | str (s : String)
  | formula (f : String)
deriving DecidableEq, Repr

/-- One `worksheet.write(row, col, value)` call performed by
`Worksheet.save` on the backing xlwt sheet. -/
structure Write where
  row : Int
  col : Nat
  cell : Cell
deriving DecidableEq, Repr

/-- State of a `Worksheet` instance: title, the freshness flag `is_new`,
the row cursor `current_row` (−1 for a brand-new sheet,
`xlrd_sheet.nrows - 1` for a sheet taken over from an existing document)
and the pending buffer `data` of tab-joined row strings. -/
structure Worksheet where
  title : String
  is_new : Bool
  current_row : Int
  data : List String
deriving DecidableEq, Repr

/-- `Worksheet.__init__` on the new-worksheet branch
(`xlrd_index is None and xlrd_sheet is None`). -/
def Worksheet.mkNew (title : String) : Worksheet :=
  { title := title, is_new := true, current_row := -1, data := [] }

/-- `Worksheet.__init__` on the existing-worksheet branch: `is_new = False`
and `current_row = xlrd_sheet.nrows - 1`. -/
def Worksheet.mkExisting (title : String) (nrows : Nat) : Worksheet :=
  { title := title, is_new := false, current_row := (nrows : Int) - 1, data := [] }

/-- `Worksheet.addTabData`: append each given row string to the buffer. -/
def Worksheet.addTabData (ws : Worksheet) (rows : List String) : Worksheet :=
  { ws with data := ws.data ++ rows }

/-- `Worksheet.addText`: split on newlines and forward to `addTabData`. -/
def Worksheet.addText (ws : Worksheet) (text : String) : Worksheet :=
  ws.addTabData (text.splitOn "\n")

/-- The inner character loop of `Worksheet.save` building the xlwt formula
string from `item[1:]`.  The source guard is `c.isalpha() and c.isupper`:
`c.isupper` is a bound-method object, not a call, and a method object is
always truthy in Python, so the guard reduces to `c.isalpha()` and the row
number is appended after every ASCII letter, lowercase included. -/
def rewriteChar (currentRow : Int) (c : Char) : String :=
  if pyIsAlpha c then String.mk [c] ++ toString (currentRow + 1)
  else String.mk [c]

/-- The formula string passed to `xlwt.Formula` for a buffered item that
starts with `'='`: the characters of `item[1:]` each processed by
`rewriteChar` and concatenated in order. -/
def formulaString (item : String) (currentRow : Int) : String :=
  ((item.drop 1).data.map (rewriteChar currentRow)).foldl (· ++ ·) ""

/-- The full spreadsheet formula denoted by the cell that
`Worksheet.save` writes for a shorthand token: `xlwt.Formula f` renders as
`"=" ++ f`. -/
def rewriteFormula (shorthand : String) (targetRow : Int) : String :=
  "=" ++ formulaString shorthand targetRow

/-- `str(item).startswith('=')`: true exactly when the first character of
the item is `'='`. -/
def startsWithEq (item : String) : Bool :=
  match item.data with
  | [] => false
  | c :: _ => c = '='

/-- The value one buffered item contributes to the grid in `Worksheet.save`:
a formula cell when the item starts with `'='`, a literal cell otherwise. -/
def cellFor (currentRow : Int) (item : String) : Cell :=
  if startsWithEq item then Cell.formula (formulaString item currentRow)
  else Cell.str item

/-- The `worksheet.write` calls of one row of `Worksheet.save`: item `j` of
the tab-split row goes to column `j` of grid row `r`. -/
def rowWrites (r : Int) (items : List String) : List Write :=
  items.enum.map fun p => ⟨r, p.1, cellFor r p.2⟩

/-- The outer loop of `Worksheet.save`: `current_row` is incremented before
each buffered row is written. -/
def saveLoop (r : Int) : List String → List Write
  | [] => []
  | row :: rest => rowWrites (r + 1) (pySplitTab row) ++ saveLoop (r + 1) rest

/-- `Worksheet.save`: drain the buffer into grid writes, advance the cursor
once per buffered row, clear the buffer and clear `is_new`. -/
def Worksheet.save (ws : Worksheet) : List Write × Worksheet :=
  (saveLoop ws.current_row ws.data,
   { ws with
      current_row := ws.current_row + ws.data.length
      data := []
      is_new := false })

/-- The Python-level shape of the `insert_items` argument of
`Worksheet.insertColumn`: the source branches on `isinstance(insert_items,
list)`, so a caller passes either a single scalar item or a list of items. -/
inductive InsertItems
  | scalar (v : String)
  | list (vs : List String)
deriving DecidableEq, Repr

/-- `insert_items[j-1]` with the surrounding `except IndexError` handler,
for a Python list `vs` and loop index `j ≥ 0`.  For `j = 0` Python indexes
`vs[-1]`, the last element (an `IndexError`, hence `''`, only when `vs` is
empty); for `j ≥ 1` an index past the end gives `''`. -/
def listItemAt (vs : List String) (j : Nat) : String :=
  if j = 0 then vs.getLast?.getD ""
  else (vs.get? (j - 1)).getD ""

/-- The data item inserted at loop index `j` of `Worksheet.insertColumn`
when the title has already been placed: the scalar itself, or
`insert_items[j-1]` guarded against `IndexError`. -/
def itemValue (ins : InsertItems) (j : Nat) : String :=
  match ins with
  | .scalar v => v
  | .list vs => listItemAt vs j

/-- The inner loop of `Worksheet.insertColumn` over one tab-split row:
`j` counts `range(len(items))`; when `j == position` the new item (the
title, the first time this ever fires, tracked by the boolean flag) is
appended before `items[j]`.  Returns the new item list and the updated
`insert_title` flag. -/
def insertColumnLoop (position : Nat) (title : String) (ins : InsertItems) :
    List String → Bool → Nat → List String × Bool
  | [], flag, _ => ([], flag)
  | item :: rest, flag, j =>
    if j = position then
      let val := if flag then title else itemValue ins j
      let r := insertColumnLoop position title ins rest false (j + 1)
      (val :: item :: r.1, r.2)
    else
      let r := insertColumnLoop position title ins rest flag (j + 1)
      (item :: r.1, r.2)

/-- `Worksheet.insertColumn`: refuses (returns `False`, buffer untouched)
when the sheet is not new; otherwise rewrites every buffered row through
`insertColumnLoop`, threading the `insert_title` flag across rows, and
returns `True`.  The method never writes to the backing grid. -/
def Worksheet.insertColumn (ws : Worksheet) (position : Nat)
    (ins : InsertItems) (title : String) : Bool × Worksheet :=
  if !ws.is_new then (false, ws)
  else
    let step : List String × Bool → String → List String × Bool :=
      fun acc row =>
        let r := insertColumnLoop position title ins (pySplitTab row) acc.2 0
        (acc.1 ++ [joinTab r.1], r.2)
    (true, { ws with data := (ws.data.foldl step ([], true)).1 })

/-- A Python exception escaping a modelled method. -/
inductive PyError
  | nameError (msg : String)
  | valueError (msg : String)
  | indexError (msg : String)
  | keyError (msg : String)
deriving DecidableEq, Repr

/-- `Worksheet.getColumnId`, modelled faithfully to the source including its
two defects:
* `self.data[0]` on an empty buffer raises `IndexError`, which the handler
  catches and re-raises as `IndexError("Column ... not found")`;
* `list.index(name)` on a miss raises `ValueError`, which the
  `except IndexError` handler does NOT catch, so it escapes unlabelled;
* on a hit, `string.uppercase[i]` is evaluated, but the module never
  imports `string`, so the lookup of the global name `string` raises
  `NameError` and the method can never return a column letter. -/
def Worksheet.getColumnId (ws : Worksheet) (name : String) :
    Except PyError String :=
  match ws.data with
  | [] => .error (.indexError ("Column '" ++ name ++ "' not found"))
  | row :: _ =>
    match (pySplitTab row).indexOf? name with
    | none => .error (.valueError (name ++ " is not in list"))
    | some _ => .error (.nameError "global name 'string' is not defined")

/-- State of a `Workbook` instance: output name and registered sheets in
registration order.  The xlwt workbook handle is external state and carries
no information the modelled methods read. -/
structure Workbook where
  name : String
  sheets : List Worksheet
deriving DecidableEq, Repr

/-- `Workbook.getSheet`: first sheet whose title matches exactly, else
`KeyError`. -/
def Workbook.getSheet (wb : Workbook) (title : String) :
    Except PyError Worksheet :=
  match wb.sheets.find? (fun s => title = s.title) with
  | some s => .ok s
  | none => .error (.keyError ("No sheet called '" ++ title ++ "' found"))

/-- `Workbook.addSheet` on the caller path (`xlrd_index is None and
xlrd_sheet is None`): if a sheet with the title exists it is returned
(only a warning is logged) and the registry is unchanged; otherwise a new
worksheet is created, appended and returned. -/
def Workbook.addSheet (wb : Workbook) (title : String) :
    Worksheet × Workbook :=
  match wb.sheets.find? (fun s => title = s.title) with
  | some ws => (ws, wb)
  | none =>
    let ws := Worksheet.mkNew title
    (ws, { wb with sheets := wb.sheets ++ [ws] })

/-- State of the single-sheet `Spreadsheet` class: output name, cached
header row and the row cursor. -/
structure SingleSheet where
  name : String
  headers : List String
  current_row : Int
deriving DecidableEq, Repr

/-- `Spreadsheet.__init__` on the new-file branch: fresh sheet, empty
headers, `current_row = -1`. -/
def SingleSheet.mkNew (name : String) : SingleSheet :=
  { name := name, headers := [], current_row := -1 }

/-- `Spreadsheet.__init__` on the existing-file branch, over the
pre-existing sheet's cell grid (row-major, `str(cell.value)` strings):
`current_row = rs.nrows` (not `nrows - 1`), and the headers are collected
from the first row whose first cell is non-empty. -/
def SingleSheet.mkExisting (name : String) (grid : List (List String)) :
    SingleSheet :=
  { name := name
    current_row := (grid.length : Int)
    headers := (grid.find? (fun r => r.headD "" ≠ "")).getD [] }

/-- The style-intent arguments of `Spreadsheet.addRow`
(`bold`, `wrap`, `bg_color`; an empty `bg_color` string is falsy). -/
structure StyleIntent where
  bold : Bool
  wrap : Bool
  bg_color : String
deriving DecidableEq, Repr

/-- One `'%s: ' % key + ', '.join(vals) + '; '` clause of the easyxf style
string, contributed only when the value list is non-empty. -/
def styleClause (key : String) (vals : List String) : String :=
  if vals = [] then ""
  else key ++ ": " ++ String.intercalate ", " vals ++ "; "

/-- The easyxf style string composed by `Spreadsheet.addRow`.  The source
fills a dict literal `\x7b'font': [...], 'alignment': [...], 'pattern': [...]\x7d`
and concatenates one clause per non-empty entry while iterating
`style.keys()`.  In CPython 2.7 (no hash randomization by default) the
iteration order of an 8-slot string-keyed dict is the ascending order of
`hash(key) & 7`; the Python 2 string hashes give slot 1 for `'pattern'`,
slot 3 for `'font'` and slot 6 for `'alignment'` (on 32- and 64-bit longs
alike, with no probe collisions), so the keys are visited in the fixed
order `pattern`, `font`, `alignment`. -/
def composeStyle (si : StyleIntent) : String :=
  let font := if si.bold then ["bold True"] else []
  let alignment := if si.wrap then ["wrap True"] else []
  let pattern :=
    if si.bg_color ≠ "" then ["pattern solid", "fore_color " ++ si.bg_color]
    else []
  styleClause "pattern" pattern ++ styleClause "font" font ++
    styleClause "alignment" alignment

theorem pySplitTab_ne_nil (s : String) : pySplitTab s ≠ [] := by
  simp only [pySplitTab, ne_eq, List.map_eq_nil_iff]
  exact splitTabAux_ne_nil s.data

theorem mem_rowWrites_row {r : Int} {items : List String} {w : Write}
    (hw : w ∈ rowWrites r items) : w.row = r := by
  simp only [rowWrites, List.mem_map] at hw
  obtain ⟨p, -, rfl⟩ := hw
  rfl

theorem rowWrites_ne_nil {r : Int} {items : List String} (h : items ≠ []) :
    rowWrites r items ≠ [] := by
  simp [rowWrites, List.enum_eq_nil, h]

theorem saveLoop_row_bounds (rows : List String) (r : Int) :
    ∀ w ∈ saveLoop r rows, r < w.row ∧ w.row ≤ r + rows.length := by
  induction rows generalizing r with
  | nil => simp [saveLoop]
  | cons row rest ih =>
    intro w hw
    simp only [saveLoop, List.mem_append] at hw
    rcases hw with hw | hw
    · rw [mem_rowWrites_row hw]
      simp only [List.length_cons]
      omega
    · have h := ih (r + 1) w hw
      simp only [List.length_cons]
      omega

theorem saveLoop_filter (rows : List String) (r : Int) (k : Nat)
    (h : k < rows.length) :
    (saveLoop r rows).filter (fun w => w.row = r + 1 + k) =
      rowWrites (r + 1 + k) (pySplitTab (rows.get ⟨k, h⟩)) := by
  induction rows generalizing r k with
  | nil => simp at h
  | cons row rest ih =>
    cases k with
    | zero =>
      simp only [saveLoop, List.filter_append, Nat.cast_zero, add_zero]
      have h1 : (rowWrites (r + 1) (pySplitTab row)).filter
          (fun w => w.row = r + 1) = rowWrites (r + 1) (pySplitTab row) := by
        rw [List.filter_eq_self]
        intro w hw
        simp [mem_rowWrites_row hw]
      have h2 : (saveLoop (r + 1) rest).filter (fun w => w.row = r + 1) = [] := by
        rw [List.filter_eq_nil_iff]
        intro w hw
        have := saveLoop_row_bounds rest (r + 1) w hw
        simp only [decide_eq_true_eq]
        omega
      rw [h1, h2, List.append_nil]
      rfl
    | succ k' =>
      have h' : k' < rest.length := by
        simpa [Nat.succ_lt_succ_iff] using h
      have harith : r + 1 + ((k' + 1 : Nat) : Int) = (r + 1) + 1 + (k' : Int) := by
        push_cast
        ring
      simp only [saveLoop, List.filter_append, harith]
      have h1 : (rowWrites (r + 1) (pySplitTab row)).filter
          (fun w => w.row = (r + 1) + 1 + (k' : Int)) = [] := by
        rw [List.filter_eq_nil_iff]
        intro w hw
        rw [mem_rowWrites_row hw]
        simp only [decide_eq_true_eq]
        omega
      rw [h1, List.nil_append]
      exact ih (r + 1) k' h'

/-- Characterization of the inner row loop of `Worksheet.insertColumn`
started at loop index `j`: the new item is spliced in right before the
token at index `position - j` when the loop reaches `position`
(`j ≤ position < j + length`), and otherwise the row passes through
untouched with the `insert_title` flag unchanged. -/
theorem insertColumnLoop_spec (position : Nat) (title : String)
    (ins : InsertItems) (items : List String) (flag : Bool) (j : Nat) :
    insertColumnLoop position title ins items flag j =
      if j ≤ position ∧ position - j < items.length then
        (items.take (position - j)
           ++ (if flag then title else itemValue ins position)
              :: items.drop (position - j),
         false)
      else (items, flag) := by
  induction items generalizing flag j with
  | nil =>
    simp only [insertColumnLoop, List.length_nil]
    rw [if_neg (by omega)]
  | cons item rest ih =>
    have hlen : (item :: rest).length = rest.length + 1 := rfl
    simp only [insertColumnLoop]
    by_cases hj : j = position
    · rw [if_pos hj, ih false (j + 1),
        if_neg (show ¬(j + 1 ≤ position ∧ position - (j + 1) < rest.length) by
          omega),
        if_pos (show j ≤ position ∧ position - j < (item :: rest).length by
          rw [hlen]; omega)]
      subst hj
      simp [Nat.sub_self]
    · rw [if_neg hj, ih flag (j + 1)]
      by_cases hcond : j + 1 ≤ position ∧ position - (j + 1) < rest.length
      · rw [if_pos hcond,
          if_pos (show j ≤ position ∧ position - j < (item :: rest).length by
            rw [hlen]; omega)]
        have hpj : position - j = (position - (j + 1)) + 1 := by omega
        simp only [hpj, List.take_succ_cons, List.drop_succ_cons,
          List.cons_append]
      · rw [if_neg hcond,
          if_neg (show ¬(j ≤ position ∧ position - j < (item :: rest).length) by
            rw [hlen]; omega)]

/-- The row loop of `Worksheet.insertColumn`, with the `insert_title`
flag threaded across rows: each buffered row is tab-split, transformed by
`insertColumnLoop` and re-joined. -/
def processRows (position : Nat) (title : String) (ins : InsertItems) :
    Bool → List String → List String
  | _, [] => []
  | flag, row :: rest =>
    let r := insertColumnLoop position title ins (pySplitTab row) flag 0
    joinTab r.1 :: processRows position title ins r.2 rest

theorem insertColumn_foldl_eq (position : Nat) (title : String)
    (ins : InsertItems) (data : List String) (acc : List String) (flag : Bool) :
    (data.foldl (fun acc row =>
        let r := insertColumnLoop position title ins (pySplitTab row) acc.2 0
        (acc.1 ++ [joinTab r.1], r.2)) (acc, flag)).1
      = acc ++ processRows position title ins flag data := by
  induction data generalizing acc flag with
  | nil => simp [processRows]
  | cons row rest ih =>
    simp only [List.foldl_cons, processRows]
    rw [ih]
    simp

theorem processRows_length (position : Nat) (title : String)
    (ins : InsertItems) (flag : Bool) (data : List String) :
    (processRows position title ins flag data).length = data.length := by
  induction data generalizing flag with
  | nil => rfl
  | cons row rest ih => simp [processRows, ih]

theorem processRows_get? (position : Nat) (title : String)
    (ins : InsertItems) (data : List String) (flag : Bool) (i : Nat)
    (h : i < data.length) :
    (position < (pySplitTab (data.get ⟨i, h⟩)).length →
      ∃ v, (processRows position title ins flag data).get? i
        = some (joinTab ((pySplitTab (data.get ⟨i, h⟩)).take position
            ++ v :: (pySplitTab (data.get ⟨i, h⟩)).drop position))) ∧
    ((pySplitTab (data.get ⟨i, h⟩)).length ≤ position →
      (processRows position title ins flag data).get? i
        = some (data.get ⟨i, h⟩)) := by
  induction data generalizing flag i with
  | nil => simp at h
  | cons row rest ih =>
    cases i with
    | zero =>
      simp only [processRows, List.get]
      rw [insertColumnLoop_spec]
      constructor
      · intro hpos
        rw [if_pos ⟨Nat.zero_le position, by simpa using hpos⟩]
        refine ⟨if flag then title else itemValue ins position, ?_⟩
        simp
      · intro hle
        rw [if_neg (by omega)]
        simp [joinTab_pySplitTab]
    | succ i' =>
      have h' : i' < rest.length := by simpa using h
      simp only [processRows, List.get?_cons_succ, List.get_cons_succ]
      exact ih (insertColumnLoop position title ins (pySplitTab row) flag 0).2 i' h'

section Claims

/-- **C1** — counterexample.  The claim quantifies over every sheet opened
from a pre-existing document and asserts the cursor row starts at `N - 1`;
but `Spreadsheet.__init__` (the single-sheet class) sets
`self.current_row = rs.nrows`, so a pre-existing sheet with 2 rows gets
cursor 2, not 1. -/
theorem C1_counterexample :
    (SingleSheet.mkExisting "f" [["a"], ["b"]]).current_row ≠ (2 : Int) - 1 := by
  decide

/-- **C1** — amended.  A `Worksheet` opened from a pre-existing sheet with
`N` rows starts with cursor `N - 1`; appending `M` rows and saving emits
writes only at grid rows `N .. N+M-1` (so the first `N` rows are untouched
and no row past `N+M-1` is created), row `N+k` receives exactly the cells
of appended row `k`, every appended row does produce at least one cell, and
the cursor ends at `N+M-1`.  The single-sheet `Spreadsheet` class, by
contrast, initializes its cursor to the existing row count `N`, not
`N - 1`. -/
theorem C1_amended (title : String) (N : Nat) (rows : List String) :
    (Worksheet.mkExisting title N).current_row = (N : Int) - 1 ∧
    (∀ w ∈ (((Worksheet.mkExisting title N).addTabData rows).save).1,
        (N : Int) ≤ w.row ∧ w.row < (N : Int) + rows.length) ∧
    (∀ k, ∀ h : k < rows.length,
        ((((Worksheet.mkExisting title N).addTabData rows).save).1).filter
            (fun w => w.row = (N : Int) + k)
          = rowWrites ((N : Int) + k) (pySplitTab (rows.get ⟨k, h⟩))) ∧
    (∀ k, k < rows.length →
        ∃ w ∈ (((Worksheet.mkExisting title N).addTabData rows).save).1,
          w.row = (N : Int) + k) ∧
    ((((Worksheet.mkExisting title N).addTabData rows).save).2).current_row
      = (N : Int) + rows.length - 1 ∧
    (∀ grid : List (List String),
        (SingleSheet.mkExisting title grid).current_row = (grid.length : Int)) := by
  have hsave : (((Worksheet.mkExisting title N).addTabData rows).save).1
      = saveLoop ((N : Int) - 1) rows := by
    simp [Worksheet.save, Worksheet.addTabData, Worksheet.mkExisting]
  have hfilter : ∀ k, ∀ h : k < rows.length,
      ((((Worksheet.mkExisting title N).addTabData rows).save).1).filter
          (fun w => w.row = (N : Int) + k)
        = rowWrites ((N : Int) + k) (pySplitTab (rows.get ⟨k, h⟩)) := by
    intro k h
    rw [hsave]
    have harith : (N : Int) + k = ((N : Int) - 1) + 1 + k := by ring
    simp only [harith]
    exact saveLoop_filter rows ((N : Int) - 1) k h
  refine ⟨rfl, ?_, hfilter, ?_, ?_, fun grid => rfl⟩
  · intro w hw
    rw [hsave] at hw
    have := saveLoop_row_bounds rows ((N : Int) - 1) w hw
    omega
  · intro k hk
    have hne : rowWrites ((N : Int) + k) (pySplitTab (rows.get ⟨k, hk⟩)) ≠ [] :=
      rowWrites_ne_nil (pySplitTab_ne_nil _)
    rcases List.exists_mem_of_ne_nil _ hne with ⟨w, hw⟩
    rw [← hfilter k hk] at hw
    have hmem := List.mem_of_mem_filter hw
    have hrow := List.of_mem_filter hw
    exact ⟨w, hmem, by simpa using hrow⟩
  · simp only [Worksheet.save, Worksheet.addTabData, Worksheet.mkExisting,
      List.nil_append]
    omega

/-- **C1** — witness: with 2 pre-existing rows and the two appended rows
`"x"` and `"y\tz"`, grid row `2` receives exactly the cells of the first
appended row. -/
theorem C1_witness :
    ((((Worksheet.mkExisting "t" 2).addTabData ["x", "y\tz"]).save).1).filter
        (fun w => w.row = (2 : Int) + (0 : Nat))
      = rowWrites ((2 : Int) + (0 : Nat)) (pySplitTab "x") :=
  (C1_amended "t" 2 ["x", "y\tz"]).2.2.1 0 (by decide)

/-- **C2** — confirmed.  In the formula rewrite of `Worksheet.save`, every
uppercase letter is immediately followed by the decimal form of
`targetRow + 1`, every non-letter character passes through unchanged, and
the two example rewrites of the spec hold (`rewriteFormula` is the full
formula denoted by the emitted `xlwt.Formula` cell). -/
theorem C2_formula_rewrite (r : Nat) (c : Char) :
    (pyIsUpper c = true →
      rewriteChar (r : Int) c = String.mk [c] ++ toString ((r : Int) + 1)) ∧
    (pyIsAlpha c = false → rewriteChar (r : Int) c = String.mk [c]) ∧
    rewriteFormula "=A-B" 0 = "=A1-B1" ∧
    rewriteFormula "=A+B-C" 9 = "=A10+B10-C10" := by
  refine ⟨?_, ?_, by decide, by decide⟩
  · intro h
    have ha : pyIsAlpha c = true := by
      simp only [pyIsUpper, Bool.and_eq_true, decide_eq_true_eq] at h
      simp only [pyIsAlpha, Bool.or_eq_true, Bool.and_eq_true, decide_eq_true_eq]
      omega
    simp [rewriteChar, ha]
  · intro h
    simp [rewriteChar, h]

/-- **C2** — witness at target row 0: `'A'` is uppercase and is rewritten
to `"A1"`, `'-'` is a non-letter and passes through. -/
theorem C2_witness :
    rewriteChar ((0 : Nat) : Int) 'A' = String.mk ['A'] ++ toString (((0 : Nat) : Int) + 1) ∧
    rewriteChar ((0 : Nat) : Int) '-' = String.mk ['-'] :=
  ⟨(C2_formula_rewrite 0 'A').1 (by decide),
   (C2_formula_rewrite 0 '-').2.1 (by decide)⟩

/-- **C3** — the code evaluated at the failing input.  `insertColumn` at
position 1 with the value list `["10", "20"]` over a header row and two
data rows: the source computes `insert_items[j-1]` with `j == position`,
i.e. `insert_items[position-1]`, so *both* data rows receive `"10"`
(`values[0]`), while the claim's header-relative indexing demands that the
second data row (buffer index 2) receive `values[1] = "20"`.  At position
0 the source even indexes `insert_items[-1]`, Python's last element, so
every data row receives `"20"`. -/
theorem C3_code_eval :
    ((Worksheet.insertColumn
        { Worksheet.mkNew "t" with data := ["h1\th2", "a\tb", "c\td"] }
        1 (.list ["10", "20"]) "X").2).data
      = ["h1\tX\th2", "a\t10\tb", "c\t10\td"] ∧
    ((Worksheet.insertColumn
        { Worksheet.mkNew "t" with data := ["h1\th2", "a\tb", "c\td"] }
        0 (.list ["10", "20"]) "X").2).data
      = ["X\th1\th2", "20\ta\tb", "20\tc\td"] := by
  constructor <;> decide

/-- **C4** — confirmed.  On a sheet that is not new, `insertColumn`
returns `False` and the whole worksheet state, buffer included, is
untouched. -/
theorem C4_insert_requires_new (ws : Worksheet) (position : Nat)
    (ins : InsertItems) (title : String) (h : ws.is_new = false) :
    ws.insertColumn position ins title = (false, ws) := by
  simp [Worksheet.insertColumn, h]

/-- **C4** — witness on a worksheet opened from a pre-existing sheet. -/
theorem C4_witness :
    (Worksheet.mkExisting "t" 3).insertColumn 0 (.scalar "v") "T"
      = (false, Worksheet.mkExisting "t" 3) :=
  C4_insert_requires_new (Worksheet.mkExisting "t" 3) 0 (.scalar "v") "T" rfl

/-- **C5** — the code evaluated at the failing inputs.  The claim says
`getColumnId` returns the matching column letter and fails with
`ColumnNotFound` exactly when the buffer is empty or no token matches.
In the source, a *hit* evaluates `string.uppercase[i]` but the module
never imports `string`, so a `NameError` escapes and no letter is ever
returned; a *miss* raises `ValueError` from `list.index`, which the
`except IndexError` handler does not catch; only the empty-buffer case
produces the labelled "Column ... not found" error. -/
theorem C5_code_eval :
    (Worksheet.getColumnId { Worksheet.mkNew "t" with data := ["x\ty"] } "y"
      = .error (.nameError "global name 'string' is not defined")) ∧
    (Worksheet.getColumnId { Worksheet.mkNew "t" with data := ["x\ty"] } "z"
      = .error (.valueError "z is not in list")) ∧
    (Worksheet.getColumnId (Worksheet.mkNew "t") "q"
      = .error (.indexError "Column 'q' not found")) := by
  refine ⟨rfl, rfl, rfl⟩

/-- **C6** — counterexample.  The claim says every buffered row gets a new
token spliced in at the position; but the loop of `insertColumn` runs `j`
over `range(len(items))`, so a row with at most `position` tokens never
reaches `j == position` and is returned unchanged although the call
succeeds: with buffer `["a\tb", "c"]` and position 1 the row `"c"` keeps
its single token, and no inserted token `v` can explain it. -/
theorem C6_counterexample :
    ((Worksheet.insertColumn { Worksheet.mkNew "t" with data := ["a\tb", "c"] }
        1 (.scalar "v") "X").1 = true) ∧
    ((Worksheet.insertColumn { Worksheet.mkNew "t" with data := ["a\tb", "c"] }
        1 (.scalar "v") "X").2.data = ["a\tX\tb", "c"]) ∧
    pySplitTab "c" = ["c"] ∧
    ¬ ∃ v : String,
        ("c" : String) = joinTab ((pySplitTab "c").take 1
          ++ v :: (pySplitTab "c").drop 1) := by
  refine ⟨by decide, by decide, by decide, ?_⟩
  rintro ⟨v, hv⟩
  rw [show joinTab ((pySplitTab "c").take 1 ++ v :: (pySplitTab "c").drop 1)
      = String.mk ('c' :: '\t' :: v.data) from rfl] at hv
  have hdata := congrArg String.data hv
  rw [show ("c" : String).data = ['c'] from rfl] at hdata
  simp at hdata

/-- **C6** — amended.  On a fresh sheet, `insertColumn` succeeds, leaves
the title, freshness flag and cursor untouched, performs no grid write
(the modelled method emits none), preserves the number of buffered rows,
and transforms each row as follows: a row with more than `position` tokens
has one new token spliced in at `position` — tokens before it unchanged,
tokens at and after it shifted right by one — while a row with at most
`position` tokens is left completely unchanged. -/
theorem C6_amended (ws : Worksheet) (position : Nat) (ins : InsertItems)
    (title : String) (hnew : ws.is_new = true) :
    (ws.insertColumn position ins title).1 = true ∧
    (ws.insertColumn position ins title).2.title = ws.title ∧
    (ws.insertColumn position ins title).2.is_new = ws.is_new ∧
    (ws.insertColumn position ins title).2.current_row = ws.current_row ∧
    (ws.insertColumn position ins title).2.data.length = ws.data.length ∧
    ∀ i, ∀ h : i < ws.data.length,
      (position < (pySplitTab (ws.data.get ⟨i, h⟩)).length →
        ∃ v, (ws.insertColumn position ins title).2.data.get? i
          = some (joinTab ((pySplitTab (ws.data.get ⟨i, h⟩)).take position
              ++ v :: (pySplitTab (ws.data.get ⟨i, h⟩)).drop position))) ∧
      ((pySplitTab (ws.data.get ⟨i, h⟩)).length ≤ position →
        (ws.insertColumn position ins title).2.data.get? i
          = some (ws.data.get ⟨i, h⟩)) := by
  have hdata : (ws.insertColumn position ins title).2.data
      = processRows position title ins true ws.data := by
    simp only [Worksheet.insertColumn, hnew, Bool.not_true,
      Bool.false_eq_true, if_false]
    exact insertColumn_foldl_eq position title ins ws.data [] true
  have hres : (ws.insertColumn position ins title).1 = true ∧
      (ws.insertColumn position ins title).2.title = ws.title ∧
      (ws.insertColumn position ins title).2.is_new = ws.is_new ∧
      (ws.insertColumn position ins title).2.current_row = ws.current_row := by
    simp [Worksheet.insertColumn, hnew]
  refine ⟨hres.1, hres.2.1, hres.2.2.1, hres.2.2.2, ?_, ?_⟩
  · rw [hdata]
    exact processRows_length position title ins true ws.data
  · intro i h
    rw [hdata]
    exact processRows_get? position title ins ws.data true i h

/-- **C6** — witness: buffer `["a\tb"]`, position 1 — the single row has
2 > 1 tokens, so a token is spliced in between `"a"` and `"b"`. -/
theorem C6_witness :
    ∃ v, (({ Worksheet.mkNew "t" with data := ["a\tb"] }).insertColumn 1
        (.scalar "v") "X").2.data.get? 0
      = some (joinTab ((pySplitTab "a\tb").take 1
          ++ v :: (pySplitTab "a\tb").drop 1)) :=
  ((C6_amended { Worksheet.mkNew "t" with data := ["a\tb"] } 1 (.scalar "v") "X"
      rfl).2.2.2.2.2 0 (by decide)).1 (by decide)

/-- **C7** — counterexample.  The claim fixes the clause order as font,
alignment, pattern; the source iterates the keys of a CPython 2 dict
literal, which visits `pattern` first, so the all-active intent does not
produce the font-first descriptor. -/
theorem C7_counterexample :
    composeStyle { bold := true, wrap := true, bg_color := "red" }
      ≠ "font: bold True; alignment: wrap True; pattern: pattern solid, fore_color red; " := by
  decide

/-- **C7** — amended.  Style composition is a pure function of the intent
(identical field values give byte-identical descriptors), an all-inactive
intent yields the empty (default) easyxf descriptor, and the clauses are
joined in the fixed order pattern, font, alignment — the CPython 2 dict
iteration order of the three keys — not font, alignment, pattern. -/
theorem C7_amended (s1 s2 : StyleIntent) (hb : s1.bold = s2.bold)
    (hw : s1.wrap = s2.wrap) (hc : s1.bg_color = s2.bg_color) :
    composeStyle s1 = composeStyle s2 ∧
    composeStyle { bold := false, wrap := false, bg_color := "" } = "" ∧
    composeStyle { bold := true, wrap := true, bg_color := "red" }
      = "pattern: pattern solid, fore_color red; font: bold True; alignment: wrap True; " := by
  refine ⟨?_, by decide, by decide⟩
  cases s1
  cases s2
  simp only at hb hw hc
  rw [hb, hw, hc]

/-- **C7** — witness: two equal-field intents compose identically. -/
theorem C7_witness :
    composeStyle { bold := true, wrap := false, bg_color := "ivory" }
      = composeStyle { bold := true, wrap := false, bg_color := "ivory" } :=
  (C7_amended ⟨true, false, "ivory"⟩ ⟨true, false, "ivory"⟩ rfl rfl rfl).1

/-- **C8** — confirmed.  Calling `addSheet` twice with the same title
returns the very sheet the first call returned and leaves the registry
exactly as the first call left it: no duplicate is created. -/
theorem C8_addSheet_idempotent (wb : Workbook) (title : String) :
    ((wb.addSheet title).2.addSheet title).1 = (wb.addSheet title).1 ∧
    ((wb.addSheet title).2.addSheet title).2 = (wb.addSheet title).2 := by
  rcases h : wb.sheets.find? (fun s => title = s.title) with _ | ws
  · have hfind : (wb.sheets ++ [Worksheet.mkNew title]).find?
        (fun s => title = s.title) = some (Worksheet.mkNew title) := by
      rw [List.find?_append, h]
      simp [Worksheet.mkNew]
    simp only [Workbook.addSheet, h, hfind]
    exact ⟨trivial, trivial⟩
  · simp only [Workbook.addSheet, h]
    exact ⟨trivial, trivial⟩

/-- **C9** — counterexample.  On a fresh sheet with an empty buffer,
`save` is not a complete no-op: it clears `is_new`, so the state after
`save` differs from the state before (which is observable, e.g. through
`insertColumn`). -/
theorem C9_counterexample :
    (Worksheet.mkNew "t").data = [] ∧
    ((Worksheet.mkNew "t").save).2 ≠ Worksheet.mkNew "t" := by
  refine ⟨rfl, by decide⟩

/-- **C9** — amended.  `save` on an empty buffer performs no grid writes,
leaves the cursor row, buffer and title unchanged, and only clears
`is_new`; a second `save` is then a true no-op, so repeated calls are
safe (idempotent). -/
theorem C9_amended (ws : Worksheet) (h : ws.data = []) :
    (ws.save).1 = [] ∧
    (ws.save).2.current_row = ws.current_row ∧
    (ws.save).2.data = [] ∧
    (ws.save).2.title = ws.title ∧
    (ws.save).2.is_new = false ∧
    ((ws.save).2).save = ([], (ws.save).2) := by
  simp [Worksheet.save, h, saveLoop]

/-- **C9** — witness on a sheet opened from 5 pre-existing rows. -/
theorem C9_witness :
    ((Worksheet.mkExisting "t" 5).save).1 = [] ∧
    ((Worksheet.mkExisting "t" 5).save).2.current_row
      = (Worksheet.mkExisting "t" 5).current_row ∧
    ((Worksheet.mkExisting "t" 5).save).2.data = [] ∧
    ((Worksheet.mkExisting "t" 5).save).2.title = (Worksheet.mkExisting "t" 5).title ∧
    ((Worksheet.mkExisting "t" 5).save).2.is_new = false ∧
    (((Worksheet.mkExisting "t" 5).save).2).save
      = ([], ((Worksheet.mkExisting "t" 5).save).2) :=
  C9_amended (Worksheet.mkExisting "t" 5) rfl

/-- **C10** — confirmed.  Because the guard `c.isalpha() and c.isupper`
tests the truthiness of the bound method `c.isupper` instead of calling
it, every ASCII letter — lowercase included — is followed by the row
number; in particular the shorthand `"=a+B"` emitted at cursor row 0
becomes the formula cell `a1+B1`. -/
theorem C10_lowercase_anchored (r : Int) (c : Char) (h : pyIsAlpha c = true) :
    rewriteChar r c = String.mk [c] ++ toString (r + 1) ∧
    cellFor 0 "=a+B" = Cell.formula "a1+B1" := by
  exact ⟨by simp [rewriteChar, h], by decide⟩

/-- **C10** — witness at the lowercase letter `'a'`. -/
theorem C10_witness :
    rewriteChar 0 'a' = String.mk ['a'] ++ toString ((0 : Int) + 1) :=
  (C10_lowercase_anchored 0 'a' (by decide)).1

end Claims

end Spreadsheet
